import Mathlib

/-!
Shallow embedding of the bootstrap orchestrator of the `hermes` desktop
shell (Electron main process, `maker-frontend/src/components/Hooks.tsx`
sources: the `retry` / `checkAvailablePort` port allocator, the `alive`
liveness probe, `createWindow`, the `window-all-closed` handler, the
`app.whenReady` bootstrap sequence, and the `useLatestEvent` hook).

Conventions of the embedding:
* Ports and timeouts are natural numbers.
* `Math.random()` draws are modelled as an explicit stream of rationals
  in `[0, 1)`; `Math.floor` on a nonnegative value is `Nat.floor`.
* Promise rejection is `Except`.
* The asynchronous event loop is modelled as a small-step machine over an
  explicit state record, driven by a list of external events (timer
  expiry with the request outcome, promise resolution, user actions).
-/

namespace Hermes

/-! ## Port allocation: `checkAvailablePort` and `retry` -/

/-- `const minPort = 10_000` in `retry`. -/
def minPort : ℕ := 10000

/-- `const maxPort = 65_535` in `retry`. -/
def maxPort : ℕ := 65535

/-- One random candidate:
`Math.floor(Math.random() * (maxPort - minPort + 1) + minPort)`, with the
`Math.random()` value given as a rational `q ∈ [0, 1)`. -/
def randomPort (q : ℚ) : ℕ :=
  Nat.floor (q * ((maxPort : ℚ) - (minPort : ℚ) + 1) + (minPort : ℚ))

/-- `checkAvailablePort(port)`: binds a throwaway listener on the port at
the loopback address; resolves with the bound port, rejects with the bind
error.  Availability and the concrete error value are oracles indexed by
the attempt number (each call is a fresh, time-dependent bind attempt). -/
def checkAvailablePort {ε : Type} (avail : ℕ → ℕ → Bool) (errOf : ℕ → ℕ → ε)
    (attempt : ℕ) (port : ℕ) : Except ε ℕ :=
  if avail attempt port then Except.ok port else Except.error (errOf attempt port)

/-- `retry(maxRetries, fn, port)` from the source:
`fn(port).catch(err => { if (maxRetries <= 0) throw err;
return retry(maxRetries - 1, fn, <random candidate>); })`.
Besides the result it returns the list of ports attempted (in order), so
that attempt counts and candidate ranges are provable.  `i` is the index
into the random stream, also used as the attempt number passed to `fn`. -/
def retry {ε : Type} (fn : ℕ → ℕ → Except ε ℕ) (rand : ℕ → ℚ) :
    ℕ → ℕ → ℕ → Except ε ℕ × List ℕ
  | maxRetries, port, i =>
    match fn i port with
    | Except.ok p => (Except.ok p, [port])
    | Except.error e =>
      match maxRetries with
      | 0 => (Except.error e, [port])
      | m + 1 =>
        let r := retry fn rand m (randomPort (rand i)) (i + 1)
        (r.1, port :: r.2)

/-- The bootstrap call `port = await retry(5, checkAvailablePort, 7113)`,
generalised over the retry budget and the preferred port. -/
def allocate {ε : Type} (avail : ℕ → ℕ → Bool) (errOf : ℕ → ℕ → ε)
    (rand : ℕ → ℚ) (maxRetries : ℕ) (preferred : ℕ) : Except ε ℕ × List ℕ :=
  retry (checkAvailablePort avail errOf) rand maxRetries preferred 0

theorem randomPort_bounds {q : ℚ} (h0 : 0 ≤ q) (h1 : q < 1) :
    minPort ≤ randomPort q ∧ randomPort q ≤ maxPort := by
  have hspan : ((maxPort : ℚ) - (minPort : ℚ) + 1) = 55536 := by
    norm_num [minPort, maxPort]
  have harg : q * ((maxPort : ℚ) - (minPort : ℚ) + 1) + (minPort : ℚ)
      = q * 55536 + 10000 := by
    rw [hspan]; norm_num [minPort]
  constructor
  · apply Nat.le_floor
    rw [harg]
    have : (0 : ℚ) ≤ q * 55536 := by positivity
    push_cast [minPort]
    linarith
  · have hnonneg : (0 : ℚ) ≤ q * 55536 + 10000 := by positivity
    have hlt : q * 55536 + 10000 < 65536 := by nlinarith
    have hfl := (Nat.floor_lt hnonneg).mpr
      (by exact_mod_cast hlt : q * 55536 + 10000 < ((65536 : ℕ) : ℚ))
    have hrp : randomPort q < 65536 := by
      unfold randomPort
      rw [harg]
      exact hfl
    have hm : maxPort = 65535 := rfl
    omega

theorem retry_length_le {ε : Type} (fn : ℕ → ℕ → Except ε ℕ) (rand : ℕ → ℚ) :
    ∀ (R port i : ℕ), (retry fn rand R port i).2.length ≤ R + 1 := by
  intro R
  induction R with
  | zero =>
    intro port i
    rw [retry]
    cases fn i port <;> simp
  | succ m ih =>
    intro port i
    rw [retry]
    cases fn i port with
    | ok p => simp
    | error e =>
      simp only [List.length_cons]
      exact Nat.succ_le_succ (ih _ _)

theorem retry_ok {ε : Type} {fn : ℕ → ℕ → Except ε ℕ} {rand : ℕ → ℚ}
    {port i p : ℕ} (h : fn i port = Except.ok p) (R : ℕ) :
    retry fn rand R port i = (Except.ok p, [port]) := by
  rw [retry, h]

theorem getLast?_cons_of_ne_nil {α : Type} (a : α) {l : List α} (h : l ≠ []) :
    (a :: l).getLast? = l.getLast? := by
  cases l with
  | nil => exact absurd rfl h
  | cons b t => exact List.getLast?_cons_cons

/-- The attempted-ports trace always starts with the port argument. -/
theorem retry_trace_cons {ε : Type} (fn : ℕ → ℕ → Except ε ℕ) (rand : ℕ → ℚ)
    (R port i : ℕ) :
    (retry fn rand R port i).2 = port :: (retry fn rand R port i).2.tail := by
  rw [retry]
  cases fn i port with
  | ok p => rfl
  | error e => cases R <;> rfl

/-- If every bind attempt fails, the run makes exactly `R + 1` attempts and
rejects with the bind error of the final attempt. -/
theorem retry_allfail {ε : Type} (fn : ℕ → ℕ → Except ε ℕ) (rand : ℕ → ℚ)
    (hfail : ∀ j q, ∃ e, fn j q = Except.error e) :
    ∀ (R port i : ℕ),
      (retry fn rand R port i).2.length = R + 1 ∧
      ∃ q e, (retry fn rand R port i).2.getLast? = some q ∧
        fn (i + R) q = Except.error e ∧
        (retry fn rand R port i).1 = Except.error e := by
  intro R
  induction R with
  | zero =>
    intro port i
    obtain ⟨e, he⟩ := hfail i port
    rw [retry, he]
    exact ⟨rfl, port, e, rfl, by simpa using he, rfl⟩
  | succ m ih =>
    intro port i
    obtain ⟨e, he⟩ := hfail i port
    rw [retry, he]
    obtain ⟨hlen, q, e2, hlast, herr, hres⟩ := ih (randomPort (rand i)) (i + 1)
    refine ⟨by simpa using hlen, q, e2, ?_, ?_, hres⟩
    · have hne : (retry fn rand m (randomPort (rand i)) (i + 1)).2 ≠ [] := by
        intro hnil
        rw [hnil] at hlen
        simp at hlen
      rw [getLast?_cons_of_ne_nil port hne]
      exact hlast
    · have hidx : i + 1 + m = i + (m + 1) := by omega
      rw [← hidx]; exact herr

/-- Every attempted port after the first is a `randomPort` draw, hence in
`[minPort, maxPort]` when the random stream lies in `[0, 1)`. -/
theorem retry_tail_bounds {ε : Type} (fn : ℕ → ℕ → Except ε ℕ) (rand : ℕ → ℚ)
    (hrand : ∀ j, 0 ≤ rand j ∧ rand j < 1) :
    ∀ (R port i : ℕ), ∀ x ∈ (retry fn rand R port i).2.tail,
      minPort ≤ x ∧ x ≤ maxPort := by
  intro R
  induction R with
  | zero =>
    intro port i x hx
    rw [retry] at hx
    cases hfn : fn i port <;> rw [hfn] at hx <;> simp at hx
  | succ m ih =>
    intro port i x hx
    rw [retry] at hx
    cases hfn : fn i port with
    | ok p =>
      rw [hfn] at hx
      simp at hx
    | error e =>
      rw [hfn] at hx
      simp only [List.tail_cons] at hx
      rw [retry_trace_cons fn rand m (randomPort (rand i)) (i + 1)] at hx
      rcases List.mem_cons.mp hx with hhead | htail
      · subst hhead
        exact randomPort_bounds (hrand i).1 (hrand i).2
      · exact ih (randomPort (rand i)) (i + 1) x htail

/-! ## The `alive` liveness-probe chain

`alive(timeout)` issues `net.request("http://127.0.0.1:" + port)`.  The
`response` handler loads the UI and schedules nothing; the `error` handler
runs `setTimeout(alive, timeout, timeout + timeout)`.  `createWindow` seeds
a chain with `setTimeout(alive, 500, 500, 500)`.  A chain is determined by
the outcome of each attempt; `resp k = true` means the request of attempt
`k` (0-indexed) got an HTTP response. -/

/-- A pending `setTimeout(alive, delay, timeout)`: the wait before the
attempt fires, and the `timeout` argument the attempt will receive. -/
structure ProbeSched where
  delay : ℕ
  timeout : ℕ
  deriving DecidableEq

/-- The error handler of an attempt that ran with `timeout = t`:
`setTimeout(alive, t, t + t)`. -/
def aliveOnError (t : ℕ) : ProbeSched := ProbeSched.mk t (t + t)

/-- The schedule that triggers attempt `k` of a chain in which every
attempt so far failed: attempt 0 comes from the seeding
`setTimeout(alive, init, init)`, attempt `k + 1` from the error handler of
attempt `k`. -/
def aliveSched (init : ℕ) : ℕ → ProbeSched
  | 0 => ProbeSched.mk init init
  | k + 1 => aliveOnError (aliveSched init k).timeout

/-- Does attempt `k` of the chain fire at all?  Attempt 0 always fires;
attempt `k + 1` fires iff attempt `k` fired and got no response (only the
error handler reschedules). -/
def attemptOccurs (resp : ℕ → Bool) : ℕ → Bool
  | 0 => true
  | k + 1 => attemptOccurs resp k && !(resp k)

/-- The chain runs its `response` handler (the Alive signal) at attempt
`k` iff that attempt fires and gets a response. -/
def aliveEmitsAt (resp : ℕ → Bool) (k : ℕ) : Bool :=
  attemptOccurs resp k && resp k

theorem aliveSched_timeout (init : ℕ) : ∀ k, (aliveSched init k).timeout = init * 2 ^ k := by
  intro k
  induction k with
  | zero => simp [aliveSched]
  | succ m ih =>
    show (aliveOnError (aliveSched init m).timeout).timeout = init * 2 ^ (m + 1)
    rw [aliveOnError, ih]
    ring

theorem attemptOccurs_mono (resp : ℕ → Bool) :
    ∀ k j, j ≤ k → attemptOccurs resp k = true → attemptOccurs resp j = true := by
  intro k
  induction k with
  | zero =>
    intro j hj h
    interval_cases j
    exact h
  | succ m ih =>
    intro j hj h
    have hm : attemptOccurs resp m = true := by
      have h2 := h
      simp only [attemptOccurs, Bool.and_eq_true] at h2
      exact h2.1
    rcases Nat.lt_or_ge j (m + 1) with hlt | hge
    · exact ih j (Nat.lt_succ_iff.mp hlt) hm
    · have : j = m + 1 := le_antisymm hj hge
      rw [this]; exact h

theorem aliveEmitsAt_stop (resp : ℕ → Bool) {k m : ℕ}
    (hk : aliveEmitsAt resp k = true) (hkm : k < m) :
    attemptOccurs resp m = false := by
  have hk2 := hk
  simp only [aliveEmitsAt, Bool.and_eq_true] at hk2
  obtain ⟨hocc, hresp⟩ := hk2
  by_contra hm
  have hm2 : attemptOccurs resp m = true := by
    cases h : attemptOccurs resp m
    · exact absurd h hm
    · rfl
  have hsucc : attemptOccurs resp (k + 1) = true :=
    attemptOccurs_mono resp m (k + 1) hkm hm2
  rw [attemptOccurs, hocc, hresp] at hsucc
  simp at hsucc

theorem aliveEmitsAt_unique (resp : ℕ → Bool) {j k : ℕ}
    (hj : aliveEmitsAt resp j = true) (hk : aliveEmitsAt resp k = true) :
    j = k := by
  rcases Nat.lt_trichotomy j k with h | h | h
  · have := aliveEmitsAt_stop resp hj h
    rw [aliveEmitsAt, this] at hk
    simp at hk
  · exact h
  · have := aliveEmitsAt_stop resp hk h
    rw [aliveEmitsAt, this] at hj
    simp at hj

theorem attemptOccurs_allfail (resp : ℕ → Bool) (hfail : ∀ k, resp k = false) :
    ∀ k, attemptOccurs resp k = true := by
  intro k
  induction k with
  | zero => rfl
  | succ m ih =>
    rw [attemptOccurs, ih, hfail m]
    rfl

/-! ## The orchestrator event machine

The Electron main process is single-threaded and event driven: module
load installs the `window-all-closed` handler, `app.whenReady` runs
`createWindow` (which seeds a probe chain), then awaits
`retry(5, checkAvailablePort, 7113)`, assigns the module-level `port`,
calls `itchysats(network, dataDir, port)` and installs the `activate`
handler.  We model one process lifetime as a fold of a step function over
the list of delivered events.  Electron emits a window's `closed` event
(which the source uses to null `mainWindow`) before the app-level
`window-all-closed` event, so the close step nulls the window first and
then runs the `window-all-closed` handler. -/

/-- `process.platform`; `other` stands for every platform that is neither
`win32` nor `darwin` (e.g. `linux`). -/
inductive Platform
  | win32
  | darwin
  | other
  deriving DecidableEq

/-- The main `BrowserWindow`: `uiPort = some p` once
`loadURL("http://127.0.0.1:" + p)` has been issued for the service UI;
`none` while it still shows the local `index.html`. -/
structure Win where
  uiPort : Option ℕ
  deriving DecidableEq

/-- The external path values `app.getPath("userData")` and
`app.getAppPath()`. -/
structure Paths where
  userData : String
  appPath : String

/-- `const network = app.isPackaged ? "mainnet" : "testnet"`. -/
def networkOf (isPackaged : Bool) : String :=
  if isPackaged then "mainnet" else "testnet"

/-- `const dataDir = app.isPackaged ? app.getPath("userData") : app.getAppPath()`. -/
def dataDirOf (isPackaged : Bool) (paths : Paths) : String :=
  if isPackaged then paths.userData else paths.appPath

/-- External events delivered to the main process:
* `ready`: `app.whenReady` resolved, the handler runs `createWindow`;
* `allocated p`: the `retry` promise resolved with `p`; the handler
  assigns `port`, calls `itchysats(network, dataDir, port)` and installs
  the `activate` listener;
* `probe i ok`: the `i`-th pending probe timer fired; `ok` tells whether
  the `net.request` got an HTTP response (`response` handler) or errored
  (`error` handler);
* `closeWindow`: the user closed the window (the `closed` handler nulls
  `mainWindow`, then `window-all-closed` runs);
* `activate`: the app was reactivated (dock click);
* `trayShow` / `trayQuit`: the tray menu entries;
* `serviceDone ok`: the `itchysats` promise settled (resolved or
  rejected); both branches only log. -/
inductive Ev
  | ready
  | allocated (p : ℕ)
  | probe (i : ℕ) (ok : Bool)
  | closeWindow
  | activate
  | trayShow
  | trayQuit
  | serviceDone (ok : Bool)

/-- The observable state of one process lifetime.  `timers` holds the
`timeout` arguments of the pending `setTimeout(alive, …)` callbacks;
`probedPorts` logs the port of each issued probe request; `navs` logs the
port of each `loadURL` of the service UI; `serviceCalls` logs each
`itchysats(network, dataDir, port)` invocation. -/
structure S where
  started : Bool
  mainWindow : Option Win
  tray : Bool
  skipTaskbar : Bool
  dockVisible : Bool
  port : ℕ
  allocated : Bool
  quit : Bool
  timers : List ℕ
  probedPorts : List ℕ
  lastProbeOk : Option Bool
  navs : List ℕ
  serviceCalls : List (String × String × ℕ)

/-- Module-load state: `let mainWindow = null; let tray = undefined;
let port = 8000`. -/
def initState : S :=
  S.mk false none false false true 8000 false false [] [] none [] []

/-- `createWindow`: win32 with a live window leaves the taskbar again,
darwin shows the dock; the tray is created once; if a window already
exists the function returns early; otherwise a window is created showing
`index.html` and `setTimeout(alive, 500, 500, 500)` seeds a probe chain. -/
def createWindow (plat : Platform) (s : S) : S :=
  let s1 :=
    if plat = Platform.win32 ∧ s.mainWindow.isSome = true then
      { s with skipTaskbar := false }
    else if plat = Platform.darwin then { s with dockVisible := true }
    else s
  let s2 := if s1.tray then s1 else { s1 with tray := true }
  match s2.mainWindow with
  | some _ => s2
  | none => { s2 with mainWindow := some (Win.mk none), timers := s2.timers ++ [500] }

/-- The `app.on("window-all-closed")` handler, verbatim:
`if (win32 && mainWindow) setSkipTaskbar(true); else if (darwin)
app.dock.hide(); else app.quit()`. -/
def windowAllClosed (plat : Platform) (s : S) : S :=
  if plat = Platform.win32 ∧ s.mainWindow.isSome = true then
    { s with skipTaskbar := true }
  else if plat = Platform.darwin then { s with dockVisible := false }
  else { s with quit := true }

/-- One step of the event machine; see `Ev` for the handler each event
triggers. -/
def step (plat : Platform) (pack : Bool) (paths : Paths) (s : S) (e : Ev) : S :=
  match e with
  | Ev.ready =>
    if s.started then s else createWindow plat { s with started := true }
  | Ev.allocated p =>
    if s.started = true ∧ s.allocated = false then
      { s with port := p, allocated := true,
               serviceCalls := s.serviceCalls ++ [(networkOf pack, dataDirOf pack paths, p)] }
    else s
  | Ev.probe i ok =>
    match s.timers.get? i with
    | none => s
    | some t =>
      let s1 := { s with timers := s.timers.eraseIdx i,
                         probedPorts := s.probedPorts ++ [s.port],
                         lastProbeOk := some ok }
      if ok then
        match s1.mainWindow with
        | none => s1
        | some _ =>
          { s1 with mainWindow := some (Win.mk (some s1.port)),
                    navs := s1.navs ++ [s1.port] }
      else { s1 with timers := s1.timers ++ [t + t] }
  | Ev.closeWindow =>
    match s.mainWindow with
    | none => s
    | some _ => windowAllClosed plat { s with mainWindow := none }
  | Ev.activate =>
    if s.allocated = true ∧ s.mainWindow = none then createWindow plat s else s
  | Ev.trayShow =>
    if s.tray then createWindow plat s else s
  | Ev.trayQuit =>
    if s.tray then { s with quit := true } else s
  | Ev.serviceDone _ => s

/-- A whole run: fold the step function over the delivered events. -/
def exec (plat : Platform) (pack : Bool) (paths : Paths) (evs : List Ev) : S :=
  evs.foldl (step plat pack paths) initState

/-- Concrete path values used by the closed evaluation theorems. -/
def somePaths : Paths := Paths.mk "userData" "appPath"

/-! ## The `useLatestEvent` hook (`maker-frontend/src/components/Hooks.tsx`)

`useState(null)`, then on each delivered event of the subscribed name:
`const data = JSON.parse(event.data, mapping); if (filter !== undefined &&
!filter(data)) return; setState(data);`.  `JSON.parse` with its reviver is
abstracted as a function from the raw event payload to the parsed value. -/

/-- The listener body: how one delivered event transforms the state. -/
def useLatestEventStep {α : Type} (mapping : String → α) (fl : Option (α → Bool))
    (st : Option α) (ev : String) : Option α :=
  let data := mapping ev
  match fl with
  | some f => if f data = false then st else some data
  | none => some data

/-- The value the hook returns after a list of delivered events of the
subscribed name (initially `null`). -/
def useLatestEvent {α : Type} (mapping : String → α) (fl : Option (α → Bool))
    (evs : List String) : Option α :=
  evs.foldl (useLatestEventStep mapping fl) none

/-! ## Helper lemmas about the machine -/

theorem createWindow_preserves (plat : Platform) (s : S) :
    (createWindow plat s).port = s.port
    ∧ (createWindow plat s).allocated = s.allocated
    ∧ (createWindow plat s).probedPorts = s.probedPorts
    ∧ (createWindow plat s).navs = s.navs
    ∧ (createWindow plat s).quit = s.quit
    ∧ (createWindow plat s).serviceCalls = s.serviceCalls := by
  cases plat <;> cases hW : s.mainWindow <;> by_cases ht : s.tray <;>
    simp [createWindow, hW, ht]

theorem windowAllClosed_preserves (plat : Platform) (s : S) :
    (windowAllClosed plat s).port = s.port
    ∧ (windowAllClosed plat s).allocated = s.allocated
    ∧ (windowAllClosed plat s).probedPorts = s.probedPorts
    ∧ (windowAllClosed plat s).navs = s.navs
    ∧ (windowAllClosed plat s).timers = s.timers
    ∧ (windowAllClosed plat s).serviceCalls = s.serviceCalls := by
  unfold windowAllClosed
  split_ifs <;> simp

theorem createWindow_timers (plat : Platform) (s : S) :
    ((createWindow plat s).timers = s.timers ∧ (createWindow plat s).mainWindow = s.mainWindow)
    ∨ ((createWindow plat s).timers = s.timers ++ [500] ∧ s.mainWindow = none) := by
  cases plat <;> cases hW : s.mainWindow <;> by_cases ht : s.tray <;>
    simp [createWindow, hW, ht]

/-- Every step either leaves the pending probe timers alone, consumes a
fired timer (possibly rescheduling it doubled), or — only when
`createWindow` finds no window, triggered by `ready`, `activate` or the
tray Show App entry — appends a fresh 500 ms timer. -/
theorem step_timers_shape (plat : Platform) (pack : Bool) (paths : Paths)
    (s : S) (e : Ev) :
    (step plat pack paths s e).timers = s.timers
    ∨ (∃ i t, s.timers.get? i = some t
        ∧ ((step plat pack paths s e).timers = s.timers.eraseIdx i
            ∨ (step plat pack paths s e).timers = s.timers.eraseIdx i ++ [t + t]))
    ∨ ((step plat pack paths s e).timers = s.timers ++ [500]
        ∧ s.mainWindow = none
        ∧ (e = Ev.ready ∨ e = Ev.activate ∨ e = Ev.trayShow)) := by
  cases e with
  | ready =>
    by_cases hs : s.started
    · left
      simp [step, hs]
    · have h := createWindow_timers plat { s with started := true }
      rcases h with ⟨h1, _⟩ | ⟨h1, h2⟩
      · left
        simpa [step, hs] using h1
      · right; right
        refine ⟨by simpa [step, hs] using h1, by simpa using h2, Or.inl rfl⟩
  | allocated p =>
    left
    by_cases hc : s.started = true ∧ s.allocated = false <;> simp [step, hc]
  | probe i ok =>
    cases hg : s.timers.get? i with
    | none =>
      have hg2 := hg
      rw [List.get?_eq_getElem?] at hg2
      left
      simp [step, hg2]
    | some t =>
      have hg2 := hg
      rw [List.get?_eq_getElem?] at hg2
      right; left
      refine ⟨i, t, hg, ?_⟩
      cases ok with
      | true =>
        left
        cases hW : s.mainWindow <;> simp [step, hg2, hW]
      | false =>
        right
        simp [step, hg2]
  | closeWindow =>
    left
    cases hW : s.mainWindow with
    | none => simp [step, hW]
    | some w =>
      have h := (windowAllClosed_preserves plat { s with mainWindow := none }).2.2.2.2.1
      simpa [step, hW] using h
  | activate =>
    by_cases hc : s.allocated = true ∧ s.mainWindow = none
    · have h := createWindow_timers plat s
      rcases h with ⟨h1, _⟩ | ⟨h1, h2⟩
      · left
        simpa [step, hc] using h1
      · right; right
        exact ⟨by simpa [step, hc] using h1, h2, Or.inr (Or.inl rfl)⟩
    · left
      simp [step, hc]
  | trayShow =>
    by_cases hc : s.tray
    · have h := createWindow_timers plat s
      rcases h with ⟨h1, _⟩ | ⟨h1, h2⟩
      · left
        simpa [step, hc] using h1
      · right; right
        exact ⟨by simpa [step, hc] using h1, h2, Or.inr (Or.inr rfl)⟩
    · left
      simp [step, hc]
  | trayQuit =>
    left
    by_cases hc : s.tray <;> simp [step, hc]
  | serviceDone ok =>
    left
    simp [step]

/-! ## Claims -/

/-- C1: `PortAllocator.allocate` (`retry` with `checkAvailablePort`) makes
at most `R + 1` bind attempts for every retry budget `R` and every
sequence of bind outcomes; a free preferred port is returned on the first
attempt with zero retries consumed (in particular preferred port 7113 free
gives result 7113 with a one-element attempt trace); if all `R + 1`
attempts fail, the call rejects with the bind error of the last attempt;
and every retry candidate is drawn from `[10000, 65535]`. -/
theorem c1_port_allocator :
    (∀ (ε : Type) (fn : ℕ → ℕ → Except ε ℕ) (rand : ℕ → ℚ) (R port i : ℕ),
        (retry fn rand R port i).2.length ≤ R + 1)
    ∧ (∀ (ε : Type) (avail : ℕ → ℕ → Bool) (errOf : ℕ → ℕ → ε) (rand : ℕ → ℚ) (R : ℕ),
        avail 0 7113 = true →
        allocate avail errOf rand R 7113 = (Except.ok 7113, [7113]))
    ∧ (∀ (ε : Type) (fn : ℕ → ℕ → Except ε ℕ) (rand : ℕ → ℚ) (R port i : ℕ),
        (∀ j q, ∃ e, fn j q = Except.error e) →
        (retry fn rand R port i).2.length = R + 1
        ∧ ∃ q e, (retry fn rand R port i).2.getLast? = some q
            ∧ fn (i + R) q = Except.error e
            ∧ (retry fn rand R port i).1 = Except.error e)
    ∧ (∀ (ε : Type) (fn : ℕ → ℕ → Except ε ℕ) (rand : ℕ → ℚ),
        (∀ j, 0 ≤ rand j ∧ rand j < 1) →
        ∀ R port i, ∀ x ∈ (retry fn rand R port i).2.tail,
          minPort ≤ x ∧ x ≤ maxPort) := by
  refine ⟨?_, ?_, ?_, ?_⟩
  · intro ε fn rand R port i
    exact retry_length_le fn rand R port i
  · intro ε avail errOf rand R h
    unfold allocate
    exact retry_ok (by simp [checkAvailablePort, h]) R
  · intro ε fn rand R port i hfail
    exact retry_allfail fn rand hfail R port i
  · intro ε fn rand hrand R port i
    exact retry_tail_bounds fn rand hrand R port i

/-- Witness for C1 at concrete inputs: an always-failing bind oracle with a
zero random stream, and a free preferred port 7113. -/
theorem c1_port_allocator_witness :
    (retry (fun _ _ => (Except.error "EADDRINUSE" : Except String ℕ)) (fun _ => 0) 5 7113 0).2.length ≤ 6
    ∧ allocate (fun _ q => decide (q = 7113)) (fun _ _ => "EADDRINUSE") (fun _ => 0) 5 7113
        = (Except.ok 7113, [7113])
    ∧ (retry (fun _ _ => (Except.error "EADDRINUSE" : Except String ℕ)) (fun _ => 0) 2 7113 0).2.length = 3
    ∧ (minPort ≤ randomPort 0 ∧ randomPort 0 ≤ maxPort) := by
  refine ⟨c1_port_allocator.1 String _ _ 5 7113 0, ?_, ?_, ?_⟩
  · exact c1_port_allocator.2.1 String _ _ _ 5 (by decide)
  · exact (c1_port_allocator.2.2.1 String _ _ 2 7113 0
      (fun j q => ⟨"EADDRINUSE", rfl⟩)).1
  · exact c1_port_allocator.2.2.2 String
      (fun _ _ => (Except.error "EADDRINUSE" : Except String ℕ)) (fun _ => 0)
      (fun j => by norm_num) 1 7113 0 (randomPort 0) (by simp [retry])

/-- C2: across a run of consecutive probe failures seeded by
`setTimeout(alive, 500, 500, 500)` in `createWindow`, attempt `k`
(1-indexed) runs with timeout `500 * 2^(k-1)`; its error handler
schedules the next attempt after exactly that delay and doubles the
timeout for the next round (`500 * 2^k`), with no upper bound. -/
theorem c2_backoff_doubling :
    ∀ N k : ℕ, 1 ≤ k → k ≤ N →
      (aliveSched 500 (k - 1)).timeout = 500 * 2 ^ (k - 1)
      ∧ aliveOnError ((aliveSched 500 (k - 1)).timeout)
          = ProbeSched.mk (500 * 2 ^ (k - 1)) (500 * 2 ^ k) := by
  intro N k hk _
  have ht := aliveSched_timeout 500 (k - 1)
  refine ⟨ht, ?_⟩
  rw [aliveOnError, ht]
  have hkk : k - 1 + 1 = k := by omega
  have hdouble : 500 * 2 ^ (k - 1) + 500 * 2 ^ (k - 1) = 500 * 2 ^ k := by
    have h2 : 500 * 2 ^ (k - 1) + 500 * 2 ^ (k - 1) = 500 * 2 ^ (k - 1 + 1) := by
      rw [pow_succ]; ring
    rw [h2, hkk]
  rw [hdouble]

/-- Witness for C2 at `N = 3`, `k = 2`. -/
theorem c2_backoff_doubling_witness :
    (aliveSched 500 (2 - 1)).timeout = 500 * 2 ^ (2 - 1)
    ∧ aliveOnError ((aliveSched 500 (2 - 1)).timeout)
        = ProbeSched.mk (500 * 2 ^ (2 - 1)) (500 * 2 ^ 2) :=
  c2_backoff_doubling 3 2 (by norm_num) (by norm_num)

/-- C3: the probe never gives up and never emits a terminal failure: in an
all-failure run every attempt fires and the Alive (response) handler never
runs; a failed attempt leaves the navigation log and the quit flag
untouched and unconditionally reschedules the fired timer doubled. -/
theorem c3_probe_never_gives_up :
    ∀ resp : ℕ → Bool, (∀ k, resp k = false) →
      (∀ k, attemptOccurs resp k = true)
      ∧ (∀ k, aliveEmitsAt resp k = false)
      ∧ (∀ (plat : Platform) (pack : Bool) (paths : Paths) (s : S) (i t : ℕ),
          s.timers.get? i = some t →
          (step plat pack paths s (Ev.probe i false)).navs = s.navs
          ∧ (step plat pack paths s (Ev.probe i false)).timers
              = s.timers.eraseIdx i ++ [t + t]
          ∧ (step plat pack paths s (Ev.probe i false)).quit = s.quit) := by
  intro resp hfail
  refine ⟨attemptOccurs_allfail resp hfail, ?_, ?_⟩
  · intro k
    rw [aliveEmitsAt, hfail k]
    simp
  · intro plat pack paths s i t hg
    rw [List.get?_eq_getElem?] at hg
    refine ⟨?_, ?_, ?_⟩ <;> simp [step, hg]

/-- Witness for C3: the all-failure outcome stream at attempt 4, and one
failed probe step from the post-`ready` state. -/
theorem c3_probe_never_gives_up_witness :
    attemptOccurs (fun _ => false) 4 = true
    ∧ aliveEmitsAt (fun _ => false) 4 = false
    ∧ (step Platform.darwin false somePaths
        (exec Platform.darwin false somePaths [Ev.ready]) (Ev.probe 0 false)).navs
        = (exec Platform.darwin false somePaths [Ev.ready]).navs := by
  have h := c3_probe_never_gives_up (fun _ => false) (fun _ => rfl)
  exact ⟨h.1 4, h.2.1 4,
    (h.2.2 Platform.darwin false somePaths _ 0 500 (by decide)).1⟩

theorem get?_some_lt {l : List ℕ} {i t : ℕ} (hg : l.get? i = some t) :
    i < l.length := by
  by_contra hni
  push_neg at hni
  rw [List.get?_eq_getElem?, List.getElem?_eq_none hni] at hg
  cases hg

theorem mem_or_of_eq {l l2 : List ℕ} {p : ℕ} (h : l2 = l) :
    ∀ x ∈ l2, x ∈ l ∨ x = p := by
  intro x hx
  rw [h] at hx
  exact Or.inl hx

theorem mem_or_of_append {l l2 : List ℕ} {p : ℕ} (h : l2 = l ++ [p]) :
    ∀ x ∈ l2, x ∈ l ∨ x = p := by
  intro x hx
  rw [h] at hx
  rcases List.mem_append.mp hx with h2 | h2
  · exact Or.inl h2
  · exact Or.inr (List.mem_singleton.mp h2)

/-- After allocation has resolved, no step changes the chosen port or
re-enters the allocation branch (the `activate` listener is only installed
then, and the `allocated` guard is off). -/
theorem step_port_fixed (plat : Platform) (pack : Bool) (paths : Paths)
    (s : S) (e : Ev) (halloc : s.allocated = true) :
    (step plat pack paths s e).port = s.port
    ∧ (step plat pack paths s e).allocated = true := by
  cases e with
  | ready =>
    by_cases hs : s.started = true
    · simp [step, hs, halloc]
    · have h := createWindow_preserves plat { s with started := true }
      simp only [step]
      rw [if_neg hs]
      refine ⟨by rw [h.1], ?_⟩
      rw [h.2.1]
      exact halloc
  | allocated p =>
    have hc : ¬(s.started = true ∧ s.allocated = false) := by
      rintro ⟨_, h2⟩
      rw [halloc] at h2
      cases h2
    simp [step, hc, halloc]
  | probe i ok =>
    cases hg : s.timers.get? i with
    | none =>
      have hg2 := hg
      rw [List.get?_eq_getElem?] at hg2
      simp [step, hg2, halloc]
    | some t =>
      have hg2 := hg
      rw [List.get?_eq_getElem?] at hg2
      cases ok with
      | true => cases hW : s.mainWindow <;> simp [step, hg2, hW, halloc]
      | false => simp [step, hg2, halloc]
  | closeWindow =>
    cases hW : s.mainWindow with
    | none => simp [step, hW, halloc]
    | some w =>
      have h := windowAllClosed_preserves plat { s with mainWindow := none }
      simp only [step, hW]
      refine ⟨by rw [h.1], ?_⟩
      rw [h.2.1]
      exact halloc
  | activate =>
    by_cases hc : s.allocated = true ∧ s.mainWindow = none
    · have h := createWindow_preserves plat s
      simp only [step]
      rw [if_pos hc]
      exact ⟨h.1, by rw [h.2.1]; exact halloc⟩
    · have hwin : ¬s.mainWindow = none := fun hw => hc ⟨halloc, hw⟩
      simp [step, halloc, hwin]
  | trayShow =>
    by_cases hc : s.tray = true
    · have h := createWindow_preserves plat s
      simp only [step]
      rw [if_pos hc]
      exact ⟨h.1, by rw [h.2.1]; exact halloc⟩
    · simp [step, hc, halloc]
  | trayQuit =>
    by_cases hc : s.tray = true <;> simp [step, hc, halloc]
  | serviceDone ok => exact ⟨rfl, halloc⟩

/-- Every step either leaves the probe log and the navigation log alone or
appends the current port to them. -/
theorem step_probe_nav_targets (plat : Platform) (pack : Bool) (paths : Paths)
    (s : S) (e : Ev) :
    ((step plat pack paths s e).probedPorts = s.probedPorts
      ∨ (step plat pack paths s e).probedPorts = s.probedPorts ++ [s.port])
    ∧ ((step plat pack paths s e).navs = s.navs
      ∨ (step plat pack paths s e).navs = s.navs ++ [s.port]) := by
  cases e with
  | ready =>
    by_cases hs : s.started = true
    · simp [step, hs]
    · have h := createWindow_preserves plat { s with started := true }
      simp only [step]
      rw [if_neg hs]
      exact ⟨Or.inl (by rw [h.2.2.1]), Or.inl (by rw [h.2.2.2.1])⟩
  | allocated p =>
    by_cases hc : s.started = true ∧ s.allocated = false <;> simp [step, hc]
  | probe i ok =>
    cases hg : s.timers.get? i with
    | none =>
      have hg2 := hg
      rw [List.get?_eq_getElem?] at hg2
      simp [step, hg2]
    | some t =>
      have hg2 := hg
      rw [List.get?_eq_getElem?] at hg2
      cases ok with
      | true => cases hW : s.mainWindow <;> simp [step, hg2, hW]
      | false => simp [step, hg2]
  | closeWindow =>
    cases hW : s.mainWindow with
    | none => simp [step, hW]
    | some w =>
      have h := windowAllClosed_preserves plat { s with mainWindow := none }
      simp only [step, hW]
      exact ⟨Or.inl (by rw [h.2.2.1]), Or.inl (by rw [h.2.2.2.1])⟩
  | activate =>
    by_cases hc : s.allocated = true ∧ s.mainWindow = none
    · have h := createWindow_preserves plat s
      simp only [step]
      rw [if_pos hc]
      exact ⟨Or.inl h.2.2.1, Or.inl h.2.2.2.1⟩
    · simp [step, hc]
  | trayShow =>
    by_cases hc : s.tray = true
    · have h := createWindow_preserves plat s
      simp only [step]
      rw [if_pos hc]
      exact ⟨Or.inl h.2.2.1, Or.inl h.2.2.2.1⟩
    · simp [step, hc]
  | trayQuit =>
    by_cases hc : s.tray = true <;> simp [step, hc]
  | serviceDone ok => simp [step]

/-- C4 refutation: the claim scopes the at-most-once guarantee to one
process lifetime, but closing and recreating the window seeds a fresh
probe chain inside the same run — after the first successful response a
new probe timer exists again (`timers = [500]`), and a second successful
response triggers a second `loadURL` navigation (`navs = [7113, 7113]`). -/
theorem c4_counterexample :
    (exec Platform.darwin false somePaths
      [Ev.ready, Ev.allocated 7113, Ev.probe 0 true, Ev.closeWindow, Ev.activate]).timers
      = [500]
    ∧ (exec Platform.darwin false somePaths
      [Ev.ready, Ev.allocated 7113, Ev.probe 0 true, Ev.closeWindow, Ev.activate,
       Ev.probe 0 true]).navs = [7113, 7113] := by
  decide

/-- C4 amended: per probe chain the Alive (response) handler runs at most
once; once an attempt succeeds, no later attempt of that chain fires (the
response handler schedules nothing); and a success with a window present
performs exactly one navigation while consuming the fired timer without
replacement. -/
theorem c4_alive_once_per_chain :
    (∀ (resp : ℕ → Bool) (j k : ℕ),
        aliveEmitsAt resp j = true → aliveEmitsAt resp k = true → j = k)
    ∧ (∀ (resp : ℕ → Bool) (k m : ℕ),
        aliveEmitsAt resp k = true → k < m → attemptOccurs resp m = false)
    ∧ (∀ (plat : Platform) (pack : Bool) (paths : Paths) (s : S) (i t : ℕ) (w : Win),
        s.timers.get? i = some t → s.mainWindow = some w →
        (step plat pack paths s (Ev.probe i true)).navs = s.navs ++ [s.port]
        ∧ (step plat pack paths s (Ev.probe i true)).timers = s.timers.eraseIdx i) := by
  refine ⟨fun resp j k hj hk => aliveEmitsAt_unique resp hj hk,
    fun resp k m hk hkm => aliveEmitsAt_stop resp hk hkm, ?_⟩
  intro plat pack paths s i t w hg hW
  rw [List.get?_eq_getElem?] at hg
  constructor <;> simp [step, hg, hW]

/-- Witness for C4 amended: the outcome stream succeeding at attempt 1,
and one successful probe step from the post-`ready` state. -/
theorem c4_alive_once_per_chain_witness :
    (aliveEmitsAt (fun k => decide (k = 1)) 1 = true ∧ (1 : ℕ) = 1)
    ∧ attemptOccurs (fun k => decide (k = 1)) 3 = false
    ∧ (step Platform.darwin false somePaths
        (exec Platform.darwin false somePaths [Ev.ready]) (Ev.probe 0 true)).navs
      = (exec Platform.darwin false somePaths [Ev.ready]).navs
        ++ [(exec Platform.darwin false somePaths [Ev.ready]).port] := by
  refine ⟨⟨by decide,
      c4_alive_once_per_chain.1 (fun k => decide (k = 1)) 1 1 (by decide) (by decide)⟩,
    c4_alive_once_per_chain.2.1 (fun k => decide (k = 1)) 1 3 (by decide) (by decide), ?_⟩
  exact (c4_alive_once_per_chain.2.2 Platform.darwin false somePaths _ 0 500
    (Win.mk none) (by decide) (by decide)).1

/-- C5 refutation: `createWindow` (and with it the first 500 ms probe
timer) is started before the `retry` promise resolves, so a probe attempt
can fire before allocation completes; that attempt targets the initial
module value `port = 8000`, not the port later allocated (7113). -/
theorem c5_counterexample :
    (exec Platform.darwin false somePaths
      [Ev.ready, Ev.probe 0 false, Ev.allocated 7113]).probedPorts = [8000]
    ∧ (exec Platform.darwin false somePaths
      [Ev.ready, Ev.probe 0 false, Ev.allocated 7113]).port = 7113
    ∧ (8000 : ℕ) ≠ 7113 := by
  decide

/-- C5 amended: once allocation has resolved the port is fixed for the
rest of the run — no step changes it or re-enters the allocation branch —
and every probe request and every navigation issued from then on targets
exactly the allocated port. -/
theorem c5_port_fixed_after_allocation :
    ∀ (plat : Platform) (pack : Bool) (paths : Paths) (s : S) (e : Ev),
      s.allocated = true →
      (step plat pack paths s e).port = s.port
      ∧ (step plat pack paths s e).allocated = true
      ∧ (∀ x ∈ (step plat pack paths s e).probedPorts, x ∈ s.probedPorts ∨ x = s.port)
      ∧ (∀ x ∈ (step plat pack paths s e).navs, x ∈ s.navs ∨ x = s.port) := by
  intro plat pack paths s e halloc
  obtain ⟨h1, h2⟩ := step_port_fixed plat pack paths s e halloc
  obtain ⟨h3, h4⟩ := step_probe_nav_targets plat pack paths s e
  refine ⟨h1, h2, ?_, ?_⟩
  · rcases h3 with h | h
    · exact mem_or_of_eq h
    · exact mem_or_of_append h
  · rcases h4 with h | h
    · exact mem_or_of_eq h
    · exact mem_or_of_append h

/-- Witness for C5 amended: one probe step from the allocated state. -/
theorem c5_port_fixed_witness :
    (step Platform.darwin false somePaths
      (exec Platform.darwin false somePaths [Ev.ready, Ev.allocated 7113])
      (Ev.probe 0 true)).port
      = (exec Platform.darwin false somePaths [Ev.ready, Ev.allocated 7113]).port
    ∧ (step Platform.darwin false somePaths
      (exec Platform.darwin false somePaths [Ev.ready, Ev.allocated 7113])
      (Ev.probe 0 true)).allocated = true := by
  have h := c5_port_fixed_after_allocation Platform.darwin false somePaths
    (exec Platform.darwin false somePaths [Ev.ready, Ev.allocated 7113])
    (Ev.probe 0 true) (by decide)
  exact ⟨h.1, h.2.1⟩

/-- C6 refutation: the claimed iff fails after the window is closed and
recreated.  In the reached state a window exists and the most recent probe
response was successful, yet the recreated window shows the local
`index.html` (`uiPort = none`), not the service UI. -/
theorem c6_counterexample :
    (exec Platform.darwin false somePaths
      [Ev.ready, Ev.allocated 7113, Ev.probe 0 true, Ev.closeWindow,
       Ev.activate]).mainWindow = some (Win.mk none)
    ∧ (exec Platform.darwin false somePaths
      [Ev.ready, Ev.allocated 7113, Ev.probe 0 true, Ev.closeWindow,
       Ev.activate]).lastProbeOk = some true := by
  decide

/-- C6 amended: the forward direction holds per response: whenever a
successful probe response is handled while a window exists, that window is
instructed to load `http://127.0.0.1:<port>` at the current port (and the
navigation is logged); a freshly created window starts without the
service UI even if the most recent probe succeeded. -/
theorem c6_load_on_alive :
    ∀ (plat : Platform) (pack : Bool) (paths : Paths) (s : S) (i t : ℕ) (w : Win),
      s.timers.get? i = some t → s.mainWindow = some w →
      (step plat pack paths s (Ev.probe i true)).mainWindow
        = some (Win.mk (some s.port))
      ∧ (step plat pack paths s (Ev.probe i true)).navs = s.navs ++ [s.port] := by
  intro plat pack paths s i t w hg hW
  rw [List.get?_eq_getElem?] at hg
  constructor <;> simp [step, hg, hW]

/-- Witness for C6 amended: the successful probe step from the
post-`ready` state. -/
theorem c6_load_on_alive_witness :
    (step Platform.darwin false somePaths
      (exec Platform.darwin false somePaths [Ev.ready]) (Ev.probe 0 true)).mainWindow
      = some (Win.mk (some (exec Platform.darwin false somePaths [Ev.ready]).port)) := by
  exact (c6_load_on_alive Platform.darwin false somePaths _ 0 500 (Win.mk none)
    (by decide) (by decide)).1

/-- C7: the platform close policy as the code actually behaves.  The
`window-all-closed` handler's win32 branch would hide the taskbar and keep
the process alive — and does so when it sees a live window (last
conjunct) — but the window's `closed` handler nulls `mainWindow` before
`window-all-closed` fires, so the guard `win32 && mainWindow` is always
false there: on win32 closing the window falls through to `app.quit()`
and the process terminates, contradicting the claimed (and intended)
taskbar-hide behaviour.  darwin hides the dock and keeps the process
alive; every other platform quits. -/
theorem c7_close_policy :
    (exec Platform.win32 false somePaths [Ev.ready, Ev.closeWindow]).quit = true
    ∧ (exec Platform.win32 false somePaths [Ev.ready, Ev.closeWindow]).skipTaskbar = false
    ∧ (exec Platform.darwin false somePaths [Ev.ready, Ev.closeWindow]).quit = false
    ∧ (exec Platform.darwin false somePaths [Ev.ready, Ev.closeWindow]).dockVisible = false
    ∧ (exec Platform.other false somePaths [Ev.ready, Ev.closeWindow]).quit = true
    ∧ ((windowAllClosed Platform.win32
          (exec Platform.win32 false somePaths [Ev.ready])).skipTaskbar = true
        ∧ (windowAllClosed Platform.win32
          (exec Platform.win32 false somePaths [Ev.ready])).quit = false) := by
  decide

/-- C8: the service entry point is invoked with exactly the three-tuple
(network identifier, data directory, allocated port); packaged mode gives
the production data path (`userData`) and "mainnet", unpackaged mode the
development path (`appPath`) and "testnet"; and the settling of the
`itchysats` promise — resolution or rejection — only logs and leaves the
whole state unchanged (a launch failure is non-fatal). -/
theorem c8_service_launch :
    ∀ (plat : Platform) (pack : Bool) (paths : Paths) (s : S) (p : ℕ),
      s.started = true → s.allocated = false →
      (step plat pack paths s (Ev.allocated p)).serviceCalls
        = s.serviceCalls ++ [(networkOf pack, dataDirOf pack paths, p)]
      ∧ networkOf true = "mainnet"
      ∧ networkOf false = "testnet"
      ∧ (∀ q : Paths, dataDirOf true q = q.userData ∧ dataDirOf false q = q.appPath)
      ∧ (∀ ok : Bool, step plat pack paths s (Ev.serviceDone ok) = s) := by
  intro plat pack paths s p h1 h2
  refine ⟨?_, rfl, rfl, fun q => ⟨rfl, rfl⟩, fun ok => rfl⟩
  simp [step, h1, h2]

/-- Witness for C8: the allocation step out of the post-`ready` state in
packaged mode, and a failed service settlement leaving the state as is. -/
theorem c8_service_launch_witness :
    (step Platform.darwin true somePaths
      (exec Platform.darwin true somePaths [Ev.ready]) (Ev.allocated 7113)).serviceCalls
      = (exec Platform.darwin true somePaths [Ev.ready]).serviceCalls
        ++ [(networkOf true, dataDirOf true somePaths, 7113)]
    ∧ networkOf true = "mainnet"
    ∧ step Platform.darwin true somePaths
        (exec Platform.darwin true somePaths [Ev.ready]) (Ev.serviceDone false)
      = exec Platform.darwin true somePaths [Ev.ready] := by
  have h := c8_service_launch Platform.darwin true somePaths
    (exec Platform.darwin true somePaths [Ev.ready]) 7113 (by decide) (by decide)
  exact ⟨h.1, h.2.1, h.2.2.2.2 false⟩

/-- C9: `useLatestEvent` returns null before any event of the subscribed
name has been delivered; after a delivered event whose parsed payload
passes the filter (or when no filter is given) it returns that latest
parsed value; an event whose parsed payload fails the filter leaves the
returned value unchanged. -/
theorem c9_use_latest_event :
    (∀ (α : Type) (mapping : String → α) (fl : Option (α → Bool)),
        useLatestEvent mapping fl [] = none)
    ∧ (∀ (α : Type) (mapping : String → α) (evs : List String) (ev : String),
        useLatestEvent mapping none (evs ++ [ev]) = some (mapping ev))
    ∧ (∀ (α : Type) (mapping : String → α) (f : α → Bool) (evs : List String)
        (ev : String), f (mapping ev) = true →
        useLatestEvent mapping (some f) (evs ++ [ev]) = some (mapping ev))
    ∧ (∀ (α : Type) (mapping : String → α) (f : α → Bool) (evs : List String)
        (ev : String), f (mapping ev) = false →
        useLatestEvent mapping (some f) (evs ++ [ev])
          = useLatestEvent mapping (some f) evs) := by
  refine ⟨fun α mapping fl => rfl, ?_, ?_, ?_⟩
  · intro α mapping evs ev
    unfold useLatestEvent
    rw [List.foldl_append]
    rfl
  · intro α mapping f evs ev h
    unfold useLatestEvent
    rw [List.foldl_append]
    simp [useLatestEventStep, h]
  · intro α mapping f evs ev h
    unfold useLatestEvent
    rw [List.foldl_append]
    simp [useLatestEventStep, h]

/-- Witness for C9 with payload length as the parsed value and the filter
accepting lengths above 2. -/
theorem c9_use_latest_event_witness :
    useLatestEvent (fun s => s.length) (none : Option (ℕ → Bool)) [] = none
    ∧ useLatestEvent (fun s => s.length) (none : Option (ℕ → Bool))
        (["ab"] ++ ["abcd"]) = some (("abcd" : String).length)
    ∧ ((fun n => decide (2 < n)) (("abcd" : String).length) = true
        ∧ useLatestEvent (fun s => s.length) (some (fun n => decide (2 < n)))
            (["ab"] ++ ["abcd"]) = some (("abcd" : String).length))
    ∧ ((fun n => decide (2 < n)) (("a" : String).length) = false
        ∧ useLatestEvent (fun s => s.length) (some (fun n => decide (2 < n)))
            (["abcd"] ++ ["a"])
          = useLatestEvent (fun s => s.length) (some (fun n => decide (2 < n)))
            ["abcd"]) := by
  refine ⟨c9_use_latest_event.1 ℕ (fun s => s.length) none,
    c9_use_latest_event.2.1 ℕ (fun s => s.length) ["ab"] "abcd", ?_, ?_⟩
  · exact ⟨by decide,
      c9_use_latest_event.2.2.1 ℕ (fun s => s.length) (fun n => decide (2 < n))
        ["ab"] "abcd" (by decide)⟩
  · exact ⟨by decide,
      c9_use_latest_event.2.2.2 ℕ (fun s => s.length) (fun n => decide (2 < n))
        ["abcd"] "a" (by decide)⟩

/-- C10: a successful probe response arriving while no window exists only
logs and returns — no navigation, no reschedule, the fired timer is
consumed and that chain is over; and the number of pending probe timers
grows only when `createWindow` actually creates a window (reachable via
`ready`, `activate` with no window, or the tray Show App entry), each
time appending exactly one fresh timer with the initial 500 ms timeout. -/
theorem c10_chain_death_and_rebirth :
    (∀ (plat : Platform) (pack : Bool) (paths : Paths) (s : S) (i t : ℕ),
        s.mainWindow = none → s.timers.get? i = some t →
        (step plat pack paths s (Ev.probe i true)).navs = s.navs
        ∧ (step plat pack paths s (Ev.probe i true)).timers = s.timers.eraseIdx i
        ∧ (step plat pack paths s (Ev.probe i true)).mainWindow = none)
    ∧ (∀ (plat : Platform) (pack : Bool) (paths : Paths) (s : S) (e : Ev),
        s.timers.length < (step plat pack paths s e).timers.length →
        (step plat pack paths s e).timers = s.timers ++ [500]
        ∧ s.mainWindow = none
        ∧ (e = Ev.ready ∨ e = Ev.activate ∨ e = Ev.trayShow)) := by
  constructor
  · intro plat pack paths s i t hW hg
    rw [List.get?_eq_getElem?] at hg
    refine ⟨?_, ?_, ?_⟩ <;> simp [step, hg, hW]
  · intro plat pack paths s e hlen
    rcases step_timers_shape plat pack paths s e with h | ⟨i, t, hg, h | h⟩ | h
    · rw [h] at hlen
      omega
    · have hi := get?_some_lt hg
      have heq := List.length_eraseIdx_add_one hi
      rw [h] at hlen
      omega
    · have hi := get?_some_lt hg
      have heq := List.length_eraseIdx_add_one hi
      rw [h] at hlen
      rw [List.length_append] at hlen
      simp only [List.length_singleton] at hlen
      omega
    · exact h

/-- Witness for C10: a success with no window from the post-close state,
and the window-creating `ready` step out of the initial state. -/
theorem c10_chain_death_and_rebirth_witness :
    (step Platform.darwin false somePaths
      (exec Platform.darwin false somePaths [Ev.ready, Ev.closeWindow])
      (Ev.probe 0 true)).navs
      = (exec Platform.darwin false somePaths [Ev.ready, Ev.closeWindow]).navs
    ∧ ((step Platform.darwin false somePaths initState Ev.ready).timers
        = initState.timers ++ [500]
      ∧ initState.mainWindow = none
      ∧ (Ev.ready = Ev.ready ∨ Ev.ready = Ev.activate ∨ Ev.ready = Ev.trayShow)) := by
  constructor
  · exact (c10_chain_death_and_rebirth.1 Platform.darwin false somePaths _ 0 500
      (by decide) (by decide)).1
  · exact c10_chain_death_and_rebirth.2 Platform.darwin false somePaths initState
      Ev.ready (by decide)

end Hermes
